import Mathlib

/-!
Verification development for the NetSuite dashboard integration core.

The definitions below are a shallow embedding of three JavaScript modules:

* `src/api/netsuite/_concurrency.js` — retry / concurrency-controlled
  executor (`isRetryableError`, `getRetryDelay`,
  `executeWithConcurrencyControl`, `executeBatch`, stats counters);
* `src/api/netsuite/projects-suiteql.js` — OAuth token exchange and the
  in-memory token cache (`exchangeJWTForToken`, `getAccessToken`);
* the composite Project + Tasks creation RESTlet — `mapTaskStatus`,
  `createProjectTask`'s status field, and the `post` handler with its
  rollback logic.

Effectful JavaScript is modelled by explicit state passing: the remote
system's responses are supplied by oracle functions, the token cache and
the stats record are threaded through, and `Date.now()` / `Math.random()`
become explicit parameters.
-/

namespace PatDashboard

/-! ## Concurrency module: `src/api/netsuite/_concurrency.js` -/

/-- A JavaScript error as observed by `isRetryableError`:
`error.message`, `error.code` (network errors such as ECONNRESET) and
`error.response?.status` (HTTP status attached by the client). -/
structure RequestError where
  message : String
  code : Option String
  responseStatus : Option Nat
deriving Repr, DecidableEq, Inhabited

/-- The value produced by a successful `requestFn()` call: an opaque
payload plus the optional embedded `result.error.code` field that the
executor inspects for the rate-limit signal. -/
structure RequestResult where
  value : Nat
  errorCode : Option String
deriving Repr, DecidableEq

/-- One operation submitted to the executor: attempt number to outcome
(the oracle describing what `requestFn()` does on each invocation). -/
abbrev OpFn := Nat → Except RequestError RequestResult

/-- Embedding of JavaScript `String.prototype.includes` on char lists. -/
def listIncludes (pat : List Char) : List Char → Bool
  | [] => pat.isEmpty
  | c :: rest => pat.isPrefixOf (c :: rest) || listIncludes pat rest

/-- Embedding of JavaScript `s.includes(pat)`. -/
def strIncludes (s pat : String) : Bool :=
  listIncludes pat.toList s.toList

/-- `const retryableStatuses = [429, 500, 502, 503, 504];` -/
def retryableStatuses : List Nat := [429, 500, 502, 503, 504]

/-- `['ECONNRESET', 'ETIMEDOUT', 'ENOTFOUND']` -/
def retryableCodes : List String := ["ECONNRESET", "ETIMEDOUT", "ENOTFOUND"]

/-- The NetSuite rate-limit marker string. -/
def rateLimitSignal : String := "SSS_REQUEST_LIMIT_EXCEEDED"

/-- `isRetryableError(error, response)` from `_concurrency.js`; the
`response` argument is always `error.response` at the call site, modelled
here as the `responseStatus` field. -/
def isRetryableError (e : RequestError) : Bool :=
  (match e.responseStatus with
   | some s => retryableStatuses.contains s
   | none => false)
  || (match e.code with
      | some c => retryableCodes.contains c
      | none => false)
  || strIncludes e.message rateLimitSignal

/-- One iteration body of the executor's try block: run `requestFn()`,
and turn a 200-OK result carrying
`result.error.code === 'SSS_REQUEST_LIMIT_EXCEEDED'` into a thrown
`new Error('SSS_REQUEST_LIMIT_EXCEEDED')`. -/
def attemptOutcome (f : OpFn) (attempt : Nat) : Except RequestError Nat :=
  match f attempt with
  | Except.ok r =>
      if r.errorCode = some rateLimitSignal then
        Except.error { message := rateLimitSignal, code := none, responseStatus := none }
      else
        Except.ok r.value
  | Except.error e => Except.error e

/-- Result of the `for (attempt = 0; attempt <= maxRetries; ...)` loop:
either a success with the 0-based attempt index at which it succeeded, or
the last error together with the number of attempts actually made. -/
inductive LoopResult where
  | success (value : Nat) (attemptIndex : Nat)
  | failure (lastError : RequestError) (attemptsMade : Nat)
deriving Repr, DecidableEq

/-- The retry loop of `executeWithConcurrencyControl`, with `remaining`
the number of retries still allowed (`maxRetries - attempt`), so the
JavaScript retry condition `attempt < maxRetries` is `remaining ≠ 0`. -/
def execLoopGo (f : OpFn) : Nat → Nat → LoopResult
  | attempt, remaining =>
    match attemptOutcome f attempt, remaining with
    | Except.ok v, _ => LoopResult.success v attempt
    | Except.error e, 0 => LoopResult.failure e (attempt + 1)
    | Except.error e, r + 1 =>
        if isRetryableError e then execLoopGo f (attempt + 1) r
        else LoopResult.failure e (attempt + 1)

/-- The whole retry loop starting at attempt 0 with budget `maxRetries`. -/
def execLoop (f : OpFn) (maxRetries : Nat) : LoopResult :=
  execLoopGo f 0 maxRetries

/-- How many times the loop invoked `requestFn`: a success at 0-based
attempt index `i` took `i + 1` invocations, a failure result records its
invocation count directly. -/
def LoopResult.invocations : LoopResult → Nat
  | LoopResult.success _ i => i + 1
  | LoopResult.failure _ n => n

/-- The error message built on exhaustion:
``Request failed after ${maxRetries + 1} attempts: ${lastError.message}``. -/
def exhaustionMessage (maxRetries : Nat) (lastMessage : String) : String :=
  "Request failed after " ++ toString (maxRetries + 1) ++ " attempts: " ++ lastMessage

/-- The mutable `stats` object of `_concurrency.js` (the queue-depth
fields `queuedRequests`/`activeRequests` are transient bookkeeping around
the semaphore and are zero before and after every completed call, so the
completed-call counters are what is modelled). -/
structure Stats where
  totalRequests : Nat
  successfulRequests : Nat
  failedRequests : Nat
  retriedRequests : Nat
deriving Repr, DecidableEq

deriving instance DecidableEq for Except

/-- What one call to `executeWithConcurrencyControl` returns (or throws),
plus how many times `requestFn` was invoked. -/
structure ExecOutcome where
  result : Except String Nat
  attemptsMade : Nat
deriving Repr, DecidableEq

/-- `executeWithConcurrencyControl(requestFn, { maxRetries })` from
`_concurrency.js`, as a function of the per-attempt oracle and the
current stats; returns the outcome and the updated stats. -/
def executeWithConcurrencyControl (f : OpFn) (maxRetries : Nat) (st : Stats) :
    ExecOutcome × Stats :=
  let st1 : Stats := { st with totalRequests := st.totalRequests + 1 }
  match execLoop f maxRetries with
  | LoopResult.success v attemptIndex =>
      ({ result := Except.ok v, attemptsMade := attemptIndex + 1 },
       { st1 with
          successfulRequests := st1.successfulRequests + 1,
          retriedRequests :=
            if 0 < attemptIndex then st1.retriedRequests + 1 else st1.retriedRequests })
  | LoopResult.failure e n =>
      ({ result := Except.error (exhaustionMessage maxRetries e.message), attemptsMade := n },
       { st1 with failedRequests := st1.failedRequests + 1 })

/-- The value/rejection of one operation as seen by `executeBatch`
(stats counters do not influence results, so they are elided here). -/
def executeResult (f : OpFn) (maxRetries : Nat) : Except String Nat :=
  match execLoop f maxRetries with
  | LoopResult.success v _ => Except.ok v
  | LoopResult.failure e _ => Except.error (exhaustionMessage maxRetries e.message)

/-- `{ code: 'BATCH_ITEM_FAILED', message, index }` -/
structure BatchError where
  code : String
  message : String
  index : Nat
deriving Repr, DecidableEq

/-- A per-item outcome object produced inside `executeBatch`'s map:
`{ success: true, data, index }` or `{ success: false, error: {...} }`. -/
structure BatchItem where
  success : Bool
  data : Option Nat
  index : Option Nat
  error : Option BatchError
deriving Repr, DecidableEq

/-- A settled promise as returned by `Promise.allSettled`. -/
inductive Settled (α : Type) where
  | fulfilled (value : α)
  | rejected (reason : String)
deriving Repr, DecidableEq

/-- The body of `executeBatch`'s map for one request function at a given
batch index: try/catch around `executeWithConcurrencyControl`. -/
def batchItem (f : OpFn) (maxRetries idx : Nat) : BatchItem :=
  match executeResult f maxRetries with
  | Except.ok v =>
      { success := true, data := some v, index := some idx, error := none }
  | Except.error m =>
      { success := false, data := none, index := none,
        error := some { code := "BATCH_ITEM_FAILED", message := m, index := idx } }

/-- `requestFns.map((fn, index) => ...)` unrolled with an explicit index. -/
def executeBatchGo (maxRetries : Nat) : List OpFn → Nat → List (Settled BatchItem)
  | [], _ => []
  | f :: rest, idx =>
      Settled.fulfilled (batchItem f maxRetries idx) :: executeBatchGo maxRetries rest (idx + 1)

/-- `executeBatch(requestFns, { failFast: false })` (the default mode):
every mapped promise fulfills — a failing item is caught and turned into
a `BATCH_ITEM_FAILED` value — and `Promise.allSettled` wraps each one.
The `failFast: true` branch (`Promise.all` + rethrow) is a separate code
path not modelled here. -/
def executeBatch (ops : List OpFn) (maxRetries : Nat) : List (Settled BatchItem) :=
  executeBatchGo maxRetries ops 0

/-- `true` exactly when attempt `k` of the operation throws an error that
`isRetryableError` classifies as retryable. -/
def attemptFailedRetryably (f : OpFn) (k : Nat) : Bool :=
  match attemptOutcome f k with
  | Except.error e => isRetryableError e
  | Except.ok _ => false

/-- `true` exactly when the operation ultimately succeeds on its second
or later attempt (the condition under which the executor increments
`stats.retriedRequests`). -/
def succeededOnRetry (f : OpFn) (maxRetries : Nat) : Bool :=
  match execLoop f maxRetries with
  | LoopResult.success _ (_ + 1) => true
  | _ => false

/-- `getRetryDelay(attemptNumber)` from `_concurrency.js`, with the
`Math.random()` draw made an explicit parameter `r`:
`min(initialRetryDelay * 2^attempt, maxRetryDelay)` plus 0–20% jitter. -/
def getRetryDelay (attemptNumber : Nat) (r : ℚ) : ℚ :=
  let delay : ℚ := min ((1000 : ℚ) * 2 ^ attemptNumber) 32000
  let jitter : ℚ := delay * (2 / 10) * r
  delay + jitter

/-- The un-jittered backoff delay `min(1000 * 2^n, 32000)`. -/
def baseDelay (n : Nat) : ℚ :=
  min ((1000 : ℚ) * 2 ^ n) 32000

/-! ## Token module: `src/api/netsuite/projects-suiteql.js` -/

/-- The HTTP response of the token endpoint as observed by
`exchangeJWTForToken`: `response.ok`, `response.status`, the error body
text, and the parsed JSON fields `access_token` / `expires_in`. -/
structure TokenHttpResponse where
  ok : Bool
  status : Nat
  errorText : String
  accessTokenField : Option String
  expiresIn : Int
deriving Repr, DecidableEq

/-- The `{ access_token, expires_in }` payload returned on success. -/
structure OAuthTokenData where
  accessToken : String
  expiresIn : Int
deriving Repr, DecidableEq

/-- `exchangeJWTForToken()`: throw on `!response.ok`, throw when the JSON
body has no `access_token`, otherwise return the payload.  (The JWT
assertion building and the network call itself are the oracle input.) -/
def exchangeJWTForToken (resp : TokenHttpResponse) : Except String OAuthTokenData :=
  if resp.ok then
    match resp.accessTokenField with
    | none => Except.error "No access_token in OAuth response"
    | some t => Except.ok { accessToken := t, expiresIn := resp.expiresIn }
  else
    Except.error
      ("OAuth token exchange failed: " ++ toString resp.status ++ " - " ++ resp.errorText)

/-- One entry of the in-memory `tokenCache` map:
`{ token, expiresAt }` in epoch milliseconds. -/
structure TokenCacheEntry where
  token : String
  expiresAt : Int
deriving Repr, DecidableEq

/-- The 5-minute clock-skew safety buffer (`300000` ms). -/
def safetyMarginMs : Int := 300000

/-- What one call to `getAccessToken` produces: the returned token (or
the thrown error), the cache after the call, and how many network token
exchanges were performed (0 or 1). -/
structure TokenCallResult where
  result : Except String String
  cache : Option TokenCacheEntry
  exchanges : Nat
deriving Repr, DecidableEq

/-- The cache-miss path of `getAccessToken`: exchange the JWT, and on
success store `{ token, expiresAt: Date.now() + expires_in * 1000 }`; a
thrown exchange error propagates before `tokenCache.set` runs. -/
def refreshToken (now : Int) (resp : TokenHttpResponse) (cache : Option TokenCacheEntry) :
    TokenCallResult :=
  match exchangeJWTForToken resp with
  | Except.error e => { result := Except.error e, cache := cache, exchanges := 1 }
  | Except.ok d =>
      { result := Except.ok d.accessToken,
        cache := some { token := d.accessToken, expiresAt := now + d.expiresIn * 1000 },
        exchanges := 1 }

/-- `getAccessToken()`: return the cached token unchanged when
`cached.expiresAt > Date.now() + 300000`, otherwise refresh.  `now` is
the `Date.now()` reading and `resp` the token endpoint's response oracle
for the (at most one) exchange this call performs. -/
def getAccessToken (now : Int) (resp : TokenHttpResponse) (cache : Option TokenCacheEntry) :
    TokenCallResult :=
  match cache with
  | some cached =>
      if cached.expiresAt > now + safetyMarginMs then
        { result := Except.ok cached.token, cache := cache, exchanges := 0 }
      else
        refreshToken now resp cache
  | none => refreshToken now resp cache

/-- The JavaScript truthiness test `if (cached && cached.expiresAt > now + 300000)`
as a boolean on the cache. -/
def cacheValidAt (now : Int) (cache : Option TokenCacheEntry) : Bool :=
  match cache with
  | some c => now + safetyMarginMs < c.expiresAt
  | none => false

/-- `true` on `Except.error`, `false` on `Except.ok`. -/
def exceptFailed {ε α : Type} : Except ε α → Bool
  | Except.error _ => true
  | Except.ok _ => false

/-! ## Composite RESTlet: Project + Tasks creation (`post` handler) -/

/-- A NetSuite `error.create`d (or record-API thrown) error:
`{ name, message }`. -/
structure NsErr where
  name : String
  message : String
deriving Repr, DecidableEq

/-- The per-task payload fields the modelled code paths read. -/
structure TaskData where
  name : Option String
  status : Option String
deriving Repr, DecidableEq

/-- The project payload fields the modelled code paths read. -/
structure ProjectData where
  name : Option String
  entityid : Option String
  customerId : Option Nat
deriving Repr, DecidableEq

/-- The RESTlet request body `{ project, tasks }`. -/
structure PostRequest where
  project : Option ProjectData
  tasks : Option (List TaskData)
deriving Repr, DecidableEq

/-- `requestBody.tasks || []` -/
def PostRequest.taskList (req : PostRequest) : List TaskData :=
  req.tasks.getD []

/-- The `details` object of the error envelope. -/
structure ErrorDetails where
  projectId : Option Nat
  partialTasksCreated : Nat
  totalTasksRequested : Nat
deriving Repr, DecidableEq

/-- The `error` object of the response envelope. -/
structure ErrorInfo where
  code : String
  message : String
  details : ErrorDetails
deriving Repr, DecidableEq

/-- The `data` object of the success envelope. -/
structure SuccessData where
  projectId : Nat
  taskIds : List Nat
  taskCount : Nat
  entityid : Option String
deriving Repr, DecidableEq

/-- The standardized response envelope `{ success, data, error }`. -/
structure Envelope where
  success : Bool
  data : Option SuccessData
  error : Option ErrorInfo
deriving Repr, DecidableEq

/-- A JavaScript value as relevant to the `statusMap[frontendStatus]`
lookup: a string (the own-property values of the map literal), a truthy
member inherited from `Object.prototype` (a function object, or —
for the `__proto__` accessor — `Object.prototype` itself), or
`undefined`. -/
inductive JsValue where
  | str (s : String)
  | protoMember (name : String)
  | undef
deriving Repr, DecidableEq

/-- The string-keyed members every object literal inherits from
`Object.prototype`; each of them is a truthy value. -/
def objectProtoMembers : List String :=
  ["constructor", "hasOwnProperty", "isPrototypeOf", "propertyIsEnumerable",
   "toLocaleString", "toString", "valueOf", "__defineGetter__", "__defineSetter__",
   "__lookupGetter__", "__lookupSetter__", "__proto__"]

/-- A project task record in the remote system (id, parent project link,
and the `status` field value set by `createProjectTask`, if any). -/
structure TaskRec where
  id : Nat
  projectId : Nat
  status : Option JsValue
deriving Repr, DecidableEq

/-- The remote record system: existing project (Job) record ids and
project task records. -/
structure RemoteState where
  projects : List Nat
  tasks : List TaskRec
deriving Repr, DecidableEq

/-- `projectRec.save()` adding a fresh Job record. -/
def RemoteState.addProject (st : RemoteState) (pid : Nat) : RemoteState :=
  { st with projects := st.projects ++ [pid] }

/-- `taskRec.save()` adding a fresh project task record. -/
def RemoteState.addTask (st : RemoteState) (t : TaskRec) : RemoteState :=
  { st with tasks := st.tasks ++ [t] }

/-- `record.delete({ type: JOB, id: projectId })` removing the record. -/
def RemoteState.deleteProject (st : RemoteState) (pid : Nat) : RemoteState :=
  { st with projects := st.projects.erase pid }

/-- The remote system's behavior oracle for one `post` invocation:
whether the project save succeeds (and with which id), whether the task
save at each loop index succeeds (and with which id), and whether the
compensating `record.delete` of the project succeeds. -/
structure RemoteEnv where
  projectCreate : Except NsErr Nat
  taskCreate : Nat → Except NsErr Nat
  projectDelete : Bool

/-- The JavaScript property lookup `statusMap[s]` on the object literal
of `mapTaskStatus`: own properties first, then the prototype chain
(`Object.prototype`), then `undefined`. -/
def statusMapLookup (s : String) : JsValue :=
  if s = "Not Started" then JsValue.str "NOTSTART"
  else if s = "In Progress" then JsValue.str "PROGRESS"
  else if s = "Completed" then JsValue.str "COMPLETE"
  else if s = "On Hold" then JsValue.str "ONHOLD"
  else if s ∈ objectProtoMembers then JsValue.protoMember s
  else JsValue.undef

/-- JavaScript truthiness of such a value: `undefined` and the empty
string are falsy, inherited `Object.prototype` members are truthy. -/
def jsTruthy : JsValue → Bool
  | JsValue.str s => s ≠ ""
  | JsValue.protoMember _ => true
  | JsValue.undef => false

/-- `mapTaskStatus(frontendStatus)`: the lookup-with-default
`statusMap[frontendStatus] || 'NOTSTART'`.  An `undefined` argument
coerces to the key `"undefined"` (not a map entry, not an inherited
member), and the `||` fallback fires only when the lookup result is
falsy — a string naming an inherited `Object.prototype` member yields
that truthy member, not `'NOTSTART'`. -/
def mapTaskStatus (frontendStatus : Option String) : JsValue :=
  let looked :=
    match frontendStatus with
    | none => statusMapLookup "undefined"
    | some s => statusMapLookup s
  if jsTruthy looked then looked else JsValue.str "NOTSTART"

/-- The four frontend labels `mapTaskStatus` knows. -/
def knownStatusLabels : List String :=
  ["Not Started", "In Progress", "Completed", "On Hold"]

/-- The four NetSuite project task status codes. -/
def netsuiteStatusCodes : List String :=
  ["NOTSTART", "PROGRESS", "COMPLETE", "ONHOLD"]

/-- JavaScript truthiness of an optional string (`undefined` and `''`
are falsy). -/
def truthyString : Option String → Option String
  | none => none
  | some s => if s = "" then none else some s

/-- The `status` field value `createProjectTask` writes on the task
record: set to `mapTaskStatus(taskData.status)` only when
`taskData.status` is truthy, otherwise left unset. -/
def taskStatusValue (td : TaskData) : Option JsValue :=
  (truthyString td.status).map (fun s => mapTaskStatus (some s))

/-- JavaScript truthiness of `requestBody.project.customerId`
(`undefined`/`null`/`0` are falsy). -/
def isFalsyCustomer : Option Nat → Bool
  | none => true
  | some n => n = 0

/-- The `TASK_CREATE_FAILED` message
``Failed to create task "${task.name}" (index ${i}): ${taskError.message}. Project ${projectId} has been rolled back.``
(an absent `task.name` renders as the string `undefined`). -/
def taskCreateFailedMessage (taskName : Option String) (i : Nat)
    (errMessage : String) (projectId : Nat) : String :=
  "Failed to create task \"" ++ taskName.getD "undefined" ++ "\" (index "
    ++ toString i ++ "): " ++ errMessage ++ ". Project " ++ toString projectId
    ++ " has been rolled back."

/-- Outcome of the task-creation loop: all tasks created (their ids in
order), or the thrown `TASK_CREATE_FAILED` error together with the ids
created before the failure. -/
inductive TasksOutcome where
  | done (taskIds : List Nat)
  | failed (err : NsErr) (created : List Nat)
deriving Repr, DecidableEq

/-- The `for (let i = 0; i < requestBody.tasks.length; i++)` loop of the
`post` handler: create each task in order; on the first failure, attempt
the compensating delete of the project (a failing delete is only logged)
and throw `TASK_CREATE_FAILED`. -/
def createTasksLoop (env : RemoteEnv) (pid : Nat) :
    List TaskData → Nat → List Nat → RemoteState → TasksOutcome × RemoteState
  | [], _, acc, st => (TasksOutcome.done acc, st)
  | td :: rest, i, acc, st =>
      match env.taskCreate i with
      | Except.ok tid =>
          createTasksLoop env pid rest (i + 1) (acc ++ [tid])
            (st.addTask { id := tid, projectId := pid, status := taskStatusValue td })
      | Except.error e =>
          let st2 := if env.projectDelete then st.deleteProject pid else st
          (TasksOutcome.failed
              { name := "TASK_CREATE_FAILED",
                message := taskCreateFailedMessage td.name i e.message pid }
              acc,
            st2)

/-- The error-envelope constructor of the outer `catch` block. -/
def mkErrorEnvelope (code message : String) (pid : Option Nat)
    (partialCount totalCount : Nat) : Envelope :=
  { success := false,
    data := none,
    error := some
      { code := code, message := message,
        details :=
          { projectId := pid, partialTasksCreated := partialCount,
            totalTasksRequested := totalCount } } }

/-- The RESTlet `post(requestBody)` handler: validate, create the
project, create the tasks with rollback, and return the standardized
envelope; paired with the remote system state after the call. -/
def post (env : RemoteEnv) (req : PostRequest) (st : RemoteState) :
    Envelope × RemoteState :=
  match req.project with
  | none =>
      (mkErrorEnvelope "MISSING_PROJECT_DATA" "Request must include \"project\" object"
        none 0 req.taskList.length, st)
  | some proj =>
      if isFalsyCustomer proj.customerId then
        (mkErrorEnvelope "MISSING_CUSTOMER_ID" "Project must specify customerId"
          none 0 req.taskList.length, st)
      else
        match env.projectCreate with
        | Except.error e =>
            (mkErrorEnvelope e.name e.message none 0 req.taskList.length, st)
        | Except.ok pid =>
            let st1 := st.addProject pid
            match createTasksLoop env pid req.taskList 0 [] st1 with
            | (TasksOutcome.done taskIds, st2) =>
                ({ success := true,
                   data := some
                     { projectId := pid, taskIds := taskIds,
                       taskCount := taskIds.length, entityid := proj.entityid },
                   error := none },
                 st2)
            | (TasksOutcome.failed e created, st2) =>
                (mkErrorEnvelope e.name e.message (some pid) created.length
                  req.taskList.length, st2)

/-- The first loop index at which the task-creation oracle fails, for a
given list of tasks starting at index `i` (`none` when every task in the
list would be created successfully). -/
def firstFailFrom (env : RemoteEnv) (i : Nat) : List TaskData → Option Nat
  | [] => none
  | _ :: rest =>
      match env.taskCreate i with
      | Except.error _ => some i
      | Except.ok _ => firstFailFrom env (i + 1) rest

/-- `true` exactly when this `post` invocation reaches the rollback path
(some task creation fails after the project was created) and the
compensating delete of the project itself fails. -/
def rollbackFailed (env : RemoteEnv) (req : PostRequest) : Bool :=
  match req.project with
  | none => false
  | some proj =>
      if isFalsyCustomer proj.customerId then false
      else
        match env.projectCreate with
        | Except.error _ => false
        | Except.ok _ =>
            (firstFailFrom env 0 req.taskList).isSome && !env.projectDelete

/-! ## Concrete inputs used to exercise the definitions -/

/-- An operation that always fails with a retryable HTTP 503. -/
def opRetryableAlways : OpFn :=
  fun _ => Except.error { message := "oops", code := none, responseStatus := some 503 }

/-- An operation that always fails with a non-retryable HTTP 400. -/
def opNonRetryable : OpFn :=
  fun _ => Except.error { message := "bad request", code := none, responseStatus := some 400 }

/-- An operation that fails twice with a connection reset and then
succeeds with value 7. -/
def opFailTwiceThenOk : OpFn :=
  fun k =>
    if k < 2 then Except.error { message := "reset", code := some "ECONNRESET", responseStatus := none }
    else Except.ok { value := 7, errorCode := none }

/-- An operation succeeding immediately with value 5. -/
def opImmediateOk : OpFn :=
  fun _ => Except.ok { value := 5, errorCode := none }

/-- A successful token-endpoint response: `access_token = "tokA"`,
`expires_in = 3600` seconds. -/
def respTokenOk : TokenHttpResponse :=
  { ok := true, status := 200, errorText := "", accessTokenField := some "tokA", expiresIn := 3600 }

/-- A failing token-endpoint response (HTTP 503, no body fields). -/
def respTokenDown : TokenHttpResponse :=
  { ok := false, status := 503, errorText := "service unavailable", accessTokenField := none,
    expiresIn := 0 }

/-- A cached token entry that is inside the 5-minute safety margin at
time 1000 but whose true expiry (200000) is still in the future. -/
def staleEntry : TokenCacheEntry :=
  { token := "tokA", expiresAt := 200000 }

/-- An empty remote record system. -/
def emptyRemote : RemoteState :=
  { projects := [], tasks := [] }

/-- A composite request with one task. -/
def oneTaskRequest : PostRequest :=
  { project := some { name := some "P", entityid := some "PRJ-1", customerId := some 3161 },
    tasks := some [{ name := some "T0", status := none }] }

/-- A composite request with two tasks. -/
def twoTaskRequest : PostRequest :=
  { project := some { name := some "P", entityid := some "PRJ-1", customerId := some 3161 },
    tasks := some [{ name := some "T0", status := some "Bogus" }, { name := some "T1", status := none }] }

/-- A remote oracle where everything succeeds: project id 101, task ids
200, 201, ... -/
def envAllOk : RemoteEnv :=
  { projectCreate := Except.ok 101, taskCreate := fun i => Except.ok (200 + i),
    projectDelete := true }

/-- A remote oracle where the first task creation fails and the
compensating project delete succeeds. -/
def envTaskFailsRollbackOk : RemoteEnv :=
  { projectCreate := Except.ok 101,
    taskCreate := fun _ => Except.error { name := "USER_ERROR", message := "boom" },
    projectDelete := true }

/-- A remote oracle where the first task creation fails and the
compensating project delete also fails. -/
def envTaskFailsRollbackFails : RemoteEnv :=
  { projectCreate := Except.ok 101,
    taskCreate := fun _ => Except.error { name := "USER_ERROR", message := "boom" },
    projectDelete := false }

/-! ## Theorems -/

lemma mapTaskStatus_not_proto_default (str : String)
    (hp : str ∉ objectProtoMembers)
    (hl : ∀ l, l ∈ knownStatusLabels → str ≠ l) :
    mapTaskStatus (some str) = JsValue.str "NOTSTART" := by
  have h1 : str ≠ "Not Started" := hl _ (by simp [knownStatusLabels])
  have h2 : str ≠ "In Progress" := hl _ (by simp [knownStatusLabels])
  have h3 : str ≠ "Completed" := hl _ (by simp [knownStatusLabels])
  have h4 : str ≠ "On Hold" := hl _ (by simp [knownStatusLabels])
  simp [mapTaskStatus, statusMapLookup, h1, h2, h3, h4, hp, jsTruthy]

lemma mapTaskStatus_proto (str : String) (hp : str ∈ objectProtoMembers) :
    mapTaskStatus (some str) = JsValue.protoMember str := by
  have h1 : str ≠ "Not Started" := fun he => by subst he; revert hp; decide
  have h2 : str ≠ "In Progress" := fun he => by subst he; revert hp; decide
  have h3 : str ≠ "Completed" := fun he => by subst he; revert hp; decide
  have h4 : str ≠ "On Hold" := fun he => by subst he; revert hp; decide
  simp [mapTaskStatus, statusMapLookup, h1, h2, h3, h4, hp, jsTruthy]

/-- Claim C10 as stated is false on the code: the status string
"toString" is not one of the four known labels, yet the object-literal
lookup finds the truthy inherited `Object.prototype.toString`, so the
`|| 'NOTSTART'` fallback never fires — `mapTaskStatus` returns that
inherited member, which is none of the four NetSuite codes and not
`NOTSTART`. -/
theorem mapTaskStatus_prototype_counterexample :
    mapTaskStatus (some "toString") = JsValue.protoMember "toString" ∧
    mapTaskStatus (some "toString") ∉ netsuiteStatusCodes.map JsValue.str ∧
    mapTaskStatus (some "toString") ≠ JsValue.str "NOTSTART" := by
  decide

/-- Claim C10 as amended: for `undefined` and for every string that is
not the name of an inherited `Object.prototype` member, `mapTaskStatus`
returns one of the four NetSuite codes, with NOTSTART for any such
input other than the four known labels — so such a task is silently
created as Not Started rather than rejected; but an input naming an
inherited `Object.prototype` member returns that truthy member instead
of NOTSTART. -/
theorem mapTaskStatus_amended (s : Option String) :
    (s = none → mapTaskStatus s = JsValue.str "NOTSTART") ∧
    (∀ str, s = some str → str ∉ objectProtoMembers →
       mapTaskStatus s ∈ netsuiteStatusCodes.map JsValue.str ∧
       ((∀ l, l ∈ knownStatusLabels → str ≠ l) →
          mapTaskStatus s = JsValue.str "NOTSTART")) ∧
    (∀ str, s = some str → str ∈ objectProtoMembers →
       mapTaskStatus s = JsValue.protoMember str) ∧
    (∀ td : TaskData, td.status = s →
       ∀ str, s = some str → str ≠ "" → str ∉ objectProtoMembers →
         (∀ l, l ∈ knownStatusLabels → str ≠ l) →
         taskStatusValue td = some (JsValue.str "NOTSTART")) := by
  refine ⟨?_, ?_, ?_, ?_⟩
  · intro hs
    subst hs
    decide
  · intro str hs hp
    subst hs
    constructor
    · by_cases h1 : str = "Not Started"
      · subst h1; decide
      by_cases h2 : str = "In Progress"
      · subst h2; decide
      by_cases h3 : str = "Completed"
      · subst h3; decide
      by_cases h4 : str = "On Hold"
      · subst h4; decide
      rw [mapTaskStatus_not_proto_default str hp ?_]
      · decide
      · intro l hlmem
        simp only [knownStatusLabels, List.mem_cons, List.mem_singleton] at hlmem
        rcases hlmem with rfl | rfl | rfl | hlmem
        · exact h1
        · exact h2
        · exact h3
        · rcases hlmem with rfl | hlmem
          · exact h4
          · simp at hlmem
    · intro hl
      exact mapTaskStatus_not_proto_default str hp hl
  · intro str hs hp
    subst hs
    exact mapTaskStatus_proto str hp
  · intro td hts str hs hne hp hl
    subst hs
    rw [taskStatusValue, hts]
    simp [truthyString, hne, mapTaskStatus_not_proto_default str hp hl]

/-- Witness for amended C10 at the plain unrecognized string "Blocked"
and at the inherited member name "toString". -/
theorem mapTaskStatus_amended_witness :
    ("Blocked" ∉ objectProtoMembers ∧
     mapTaskStatus (some "Blocked") = JsValue.str "NOTSTART") ∧
    ("toString" ∈ objectProtoMembers ∧
     mapTaskStatus (some "toString") = JsValue.protoMember "toString") :=
  ⟨⟨by decide,
    ((mapTaskStatus_amended (some "Blocked")).2.1 "Blocked" rfl (by decide)).2 (by decide)⟩,
   ⟨by decide,
    (mapTaskStatus_amended (some "toString")).2.2.1 "toString" rfl (by decide)⟩⟩

/-- Claim C7: for every attempt number `n` and jitter draw `r ∈ [0,1)`,
the retry delay equals `D + 0.2·D·r` for `D = min(1000·2^n, 32000)`, so
it is at least `D` and strictly below `1.2·D`. -/
theorem retry_delay_formula_and_bounds (n : Nat) (r : ℚ)
    (h0 : 0 ≤ r) (h1 : r < 1) :
    getRetryDelay n r = baseDelay n + (2 / 10) * baseDelay n * r ∧
    baseDelay n ≤ getRetryDelay n r ∧
    getRetryDelay n r < (12 / 10) * baseDelay n := by
  have hD : (0 : ℚ) < baseDelay n := by
    unfold baseDelay
    have h2 : (0 : ℚ) < 1000 * 2 ^ n := by positivity
    exact lt_min h2 (by norm_num)
  have he : getRetryDelay n r = baseDelay n + baseDelay n * (2 / 10) * r := rfl
  refine ⟨by rw [he]; ring, ?_, ?_⟩
  · have hj : 0 ≤ baseDelay n * (2 / 10) * r :=
      mul_nonneg (mul_nonneg hD.le (by norm_num)) h0
    rw [he]
    linarith
  · have hp : (0 : ℚ) < baseDelay n * (2 / 10) := mul_pos hD (by norm_num)
    have hlt := mul_lt_mul_of_pos_left h1 hp
    rw [he]
    nlinarith

/-- Witness for C7 at attempt 2 with jitter draw 1/2. -/
theorem retry_delay_formula_and_bounds_witness :
    ((0 : ℚ) ≤ 1 / 2 ∧ (1 / 2 : ℚ) < 1) ∧
    (getRetryDelay 2 (1 / 2) = baseDelay 2 + (2 / 10) * baseDelay 2 * (1 / 2) ∧
     baseDelay 2 ≤ getRetryDelay 2 (1 / 2) ∧
     getRetryDelay 2 (1 / 2) < (12 / 10) * baseDelay 2) :=
  ⟨⟨by norm_num, by norm_num⟩,
   retry_delay_formula_and_bounds 2 (1 / 2) (by norm_num) (by norm_num)⟩

/-- Claim C2, evaluated on the code at the failing input: when the only
task's creation fails and the compensating project delete also fails,
`post` returns exactly the same envelope as when the delete succeeds —
a `TASK_CREATE_FAILED` error whose message asserts the project "has
been rolled back" — although the parent project record still exists.
The response never flags that the parent was not removed. -/
theorem rollback_failure_not_flagged :
    (post envTaskFailsRollbackFails oneTaskRequest emptyRemote).1 =
      (post envTaskFailsRollbackOk oneTaskRequest emptyRemote).1 ∧
    (post envTaskFailsRollbackFails oneTaskRequest emptyRemote).2.projects = [101] ∧
    (post envTaskFailsRollbackOk oneTaskRequest emptyRemote).2.projects = [] ∧
    ((post envTaskFailsRollbackFails oneTaskRequest emptyRemote).1.error).map ErrorInfo.message =
      some "Failed to create task \"T0\" (index 0): boom. Project 101 has been rolled back." :=
  ⟨rfl, rfl, rfl, rfl⟩

lemma getAccessToken_miss (now : Int) (resp : TokenHttpResponse)
    (cache : Option TokenCacheEntry) (hmiss : cacheValidAt now cache = false) :
    getAccessToken now resp cache = refreshToken now resp cache := by
  cases cache with
  | none => rfl
  | some c0 =>
      simp only [cacheValidAt, decide_eq_false_iff_not] at hmiss
      simp only [getAccessToken]
      rw [if_neg hmiss]

/-- Claim C3: a call finding no valid cached token performs exactly one
exchange; a second call made while the resulting cached entry is still
within the safety margin (`expiresAt > now + 300000`) performs no I/O
and returns the cached token with the cache unchanged; and the
refreshing call (e.g. one made after the old token's validity window)
replaces the cached value with the newly exchanged token. -/
theorem token_cache_single_exchange (now1 now2 : Int)
    (resp1 resp2 : TokenHttpResponse) (cache0 : Option TokenCacheEntry)
    (hmiss : cacheValidAt now1 cache0 = false) :
    (getAccessToken now1 resp1 cache0).exchanges = 1 ∧
    (∀ c, (getAccessToken now1 resp1 cache0).cache = some c →
       now2 + safetyMarginMs < c.expiresAt →
       getAccessToken now2 resp2 (getAccessToken now1 resp1 cache0).cache =
         { result := Except.ok c.token, cache := some c, exchanges := 0 }) ∧
    (∀ d, exchangeJWTForToken resp1 = Except.ok d →
       (getAccessToken now1 resp1 cache0).cache =
         some { token := d.accessToken, expiresAt := now1 + d.expiresIn * 1000 } ∧
       (getAccessToken now1 resp1 cache0).result = Except.ok d.accessToken) := by
  have hga := getAccessToken_miss now1 resp1 cache0 hmiss
  refine ⟨?_, ?_, ?_⟩
  · rw [hga]
    cases hex : exchangeJWTForToken resp1 <;> simp [refreshToken, hex]
  · intro c hc hvalid
    rw [hc]
    simp only [getAccessToken]
    rw [if_pos hvalid]
  · intro d hd
    rw [hga]
    unfold refreshToken
    rw [hd]
    exact ⟨rfl, rfl⟩

/-- Witness for C3: empty cache at time 0, successful exchange, second
call at time 1000 well inside the safety margin. -/
theorem token_cache_single_exchange_witness :
    cacheValidAt 0 (none : Option TokenCacheEntry) = false ∧
    (getAccessToken 0 respTokenOk none).exchanges = 1 ∧
    getAccessToken 1000 respTokenOk (getAccessToken 0 respTokenOk none).cache =
      { result := Except.ok "tokA",
        cache := some { token := "tokA", expiresAt := 3600000 }, exchanges := 0 } := by
  have h := token_cache_single_exchange 0 1000 respTokenOk respTokenOk none rfl
  exact ⟨rfl, h.1, h.2.1 { token := "tokA", expiresAt := 3600000 } (by decide) (by decide)⟩

/-- Claim C6: when the cache holds no valid token and the exchange fails
(non-2xx response or a body without `access_token`), `getAccessToken`
fails with an error and leaves the cache exactly as it was — in
particular a stale-but-valid entry is neither overwritten nor removed. -/
theorem failed_exchange_preserves_cache (now : Int) (resp : TokenHttpResponse)
    (cache : Option TokenCacheEntry)
    (hmiss : cacheValidAt now cache = false)
    (hbad : resp.ok = false ∨ resp.accessTokenField = none) :
    exceptFailed (getAccessToken now resp cache).result = true ∧
    (getAccessToken now resp cache).cache = cache ∧
    (∀ c, cache = some c → (getAccessToken now resp cache).cache = some c) := by
  have hex : ∃ m, exchangeJWTForToken resp = Except.error m := by
    rcases hbad with hb | hb
    · exact ⟨"OAuth token exchange failed: " ++ toString resp.status ++ " - " ++ resp.errorText,
        by simp [exchangeJWTForToken, hb]⟩
    · cases hok : resp.ok with
      | true => exact ⟨"No access_token in OAuth response",
          by simp [exchangeJWTForToken, hok, hb]⟩
      | false => exact ⟨"OAuth token exchange failed: " ++ toString resp.status ++ " - " ++ resp.errorText,
          by simp [exchangeJWTForToken, hok]⟩
  obtain ⟨m, hm⟩ := hex
  rw [getAccessToken_miss now resp cache hmiss]
  unfold refreshToken
  rw [hm]
  exact ⟨rfl, rfl, fun c hc => by rw [hc]⟩

/-- Witness for C6: failing exchange at time 1000 over a
stale-but-valid cache entry. -/
theorem failed_exchange_preserves_cache_witness :
    cacheValidAt 1000 (some staleEntry) = false ∧
    respTokenDown.ok = false ∧
    exceptFailed (getAccessToken 1000 respTokenDown (some staleEntry)).result = true ∧
    (getAccessToken 1000 respTokenDown (some staleEntry)).cache = some staleEntry := by
  have h := failed_exchange_preserves_cache 1000 respTokenDown (some staleEntry)
    (by decide) (Or.inl rfl)
  exact ⟨by decide, rfl, h.1, h.2.1⟩

lemma execLoopGo_ok (f : OpFn) (attempt remaining v : Nat)
    (h : attemptOutcome f attempt = Except.ok v) :
    execLoopGo f attempt remaining = LoopResult.success v attempt := by
  unfold execLoopGo
  rw [h]

lemma execLoopGo_err_zero (f : OpFn) (attempt : Nat) (e : RequestError)
    (h : attemptOutcome f attempt = Except.error e) :
    execLoopGo f attempt 0 = LoopResult.failure e (attempt + 1) := by
  unfold execLoopGo
  rw [h]

lemma execLoopGo_err_retry (f : OpFn) (attempt r : Nat) (e : RequestError)
    (h : attemptOutcome f attempt = Except.error e) (hr : isRetryableError e = true) :
    execLoopGo f attempt (r + 1) = execLoopGo f (attempt + 1) r := by
  unfold execLoopGo
  rw [h]
  simp only [hr, if_true]
  conv_lhs => rw [execLoopGo.eq_def]

lemma execLoopGo_err_stop (f : OpFn) (attempt r : Nat) (e : RequestError)
    (h : attemptOutcome f attempt = Except.error e) (hr : isRetryableError e = false) :
    execLoopGo f attempt (r + 1) = LoopResult.failure e (attempt + 1) := by
  unfold execLoopGo
  rw [h]
  simp [hr]

lemma attemptFailedRetryably_ok (f : OpFn) (attempt v : Nat)
    (ha : attemptOutcome f attempt = Except.ok v) :
    attemptFailedRetryably f attempt = false := by
  unfold attemptFailedRetryably
  rw [ha]

lemma attemptFailedRetryably_err (f : OpFn) (attempt : Nat) (e : RequestError)
    (ha : attemptOutcome f attempt = Except.error e) :
    attemptFailedRetryably f attempt = isRetryableError e := by
  unfold attemptFailedRetryably
  rw [ha]

lemma execLoopGo_invocations_le (f : OpFn) :
    ∀ remaining attempt, (execLoopGo f attempt remaining).invocations ≤ attempt + remaining + 1 := by
  intro remaining
  induction remaining with
  | zero =>
      intro attempt
      cases ha : attemptOutcome f attempt with
      | ok v =>
          rw [execLoopGo_ok f attempt 0 v ha]
          simp [LoopResult.invocations]
      | error e =>
          rw [execLoopGo_err_zero f attempt e ha]
          simp [LoopResult.invocations]
  | succ r ih =>
      intro attempt
      cases ha : attemptOutcome f attempt with
      | ok v =>
          rw [execLoopGo_ok f attempt (r + 1) v ha]
          simp [LoopResult.invocations]
      | error e =>
          cases hr : isRetryableError e with
          | true =>
              rw [execLoopGo_err_retry f attempt r e ha hr]
              have := ih (attempt + 1)
              omega
          | false =>
              rw [execLoopGo_err_stop f attempt r e ha hr]
              simp [LoopResult.invocations]

lemma execLoopGo_success_after (f : OpFn) :
    ∀ j remaining attempt v,
      (∀ k, k < j → attemptFailedRetryably f (attempt + k) = true) →
      attemptOutcome f (attempt + j) = Except.ok v →
      j ≤ remaining →
      execLoopGo f attempt remaining = LoopResult.success v (attempt + j) := by
  intro j
  induction j with
  | zero =>
      intro remaining attempt v _ hok _
      rw [Nat.add_zero] at hok
      rw [execLoopGo_ok f attempt remaining v hok, Nat.add_zero]
  | succ jj ih =>
      intro remaining attempt v hpre hok hle
      have h0 := hpre 0 (Nat.succ_pos jj)
      rw [Nat.add_zero] at h0
      cases ha : attemptOutcome f attempt with
      | ok w =>
          rw [attemptFailedRetryably_ok f attempt w ha] at h0
          cases h0
      | error e =>
          have hr : isRetryableError e = true := by
            rw [attemptFailedRetryably_err f attempt e ha] at h0
            exact h0
          obtain ⟨r, rfl⟩ : ∃ r, remaining = r + 1 := by
            cases remaining with
            | zero => omega
            | succ r => exact ⟨r, rfl⟩
          rw [execLoopGo_err_retry f attempt r e ha hr]
          have hpre2 : ∀ k, k < jj → attemptFailedRetryably f (attempt + 1 + k) = true := by
            intro k hk
            have hh := hpre (k + 1) (by omega)
            rwa [show attempt + (k + 1) = attempt + 1 + k by omega] at hh
          have hok2 : attemptOutcome f (attempt + 1 + jj) = Except.ok v := by
            rwa [show attempt + (jj + 1) = attempt + 1 + jj by omega] at hok
          have hrec := ih r (attempt + 1) v hpre2 hok2 (by omega)
          rwa [show attempt + 1 + jj = attempt + (jj + 1) by omega] at hrec

lemma execLoopGo_exhaust (f : OpFn) :
    ∀ remaining attempt e,
      (∀ k, k < remaining → attemptFailedRetryably f (attempt + k) = true) →
      attemptOutcome f (attempt + remaining) = Except.error e →
      execLoopGo f attempt remaining = LoopResult.failure e (attempt + remaining + 1) := by
  intro remaining
  induction remaining with
  | zero =>
      intro attempt e _ hlast
      rw [Nat.add_zero] at hlast
      rw [execLoopGo_err_zero f attempt e hlast, Nat.add_zero]
  | succ r ih =>
      intro attempt e hpre hlast
      have h0 := hpre 0 (Nat.succ_pos r)
      rw [Nat.add_zero] at h0
      cases ha : attemptOutcome f attempt with
      | ok w =>
          rw [attemptFailedRetryably_ok f attempt w ha] at h0
          cases h0
      | error e0 =>
          have hr : isRetryableError e0 = true := by
            rw [attemptFailedRetryably_err f attempt e0 ha] at h0
            exact h0
          rw [execLoopGo_err_retry f attempt r e0 ha hr]
          have hpre2 : ∀ k, k < r → attemptFailedRetryably f (attempt + 1 + k) = true := by
            intro k hk
            have hh := hpre (k + 1) (by omega)
            rwa [show attempt + (k + 1) = attempt + 1 + k by omega] at hh
          have hlast2 : attemptOutcome f (attempt + 1 + r) = Except.error e := by
            rwa [show attempt + (r + 1) = attempt + 1 + r by omega] at hlast
          have hrec := ih (attempt + 1) e hpre2 hlast2
          rwa [show attempt + 1 + r + 1 = attempt + (r + 1) + 1 by omega] at hrec

lemma executeWCC_attempts (f : OpFn) (maxRetries : Nat) (st : Stats) :
    (executeWithConcurrencyControl f maxRetries st).1.attemptsMade =
      (execLoop f maxRetries).invocations := by
  unfold executeWithConcurrencyControl
  cases hl : execLoop f maxRetries <;> simp [LoopResult.invocations]

/-- Claim C4: when the retry budget is exhausted — every attempt before
the last fails retryably and the final attempt (index `maxRetries`)
fails too — the executor throws an error that wraps the last underlying
failure's message, and its reported attempt count `maxRetries + 1`
equals the number of attempts actually made. -/
theorem exhaustion_error_wraps_last (f : OpFn) (maxRetries : Nat) (st : Stats)
    (elast : RequestError)
    (hpre : ∀ k, k < maxRetries → attemptFailedRetryably f k = true)
    (hlast : attemptOutcome f maxRetries = Except.error elast) :
    (executeWithConcurrencyControl f maxRetries st).1.result =
      Except.error ("Request failed after " ++ toString (maxRetries + 1)
        ++ " attempts: " ++ elast.message) ∧
    (executeWithConcurrencyControl f maxRetries st).1.attemptsMade = maxRetries + 1 := by
  have hloop : execLoop f maxRetries = LoopResult.failure elast (maxRetries + 1) := by
    have hh := execLoopGo_exhaust f maxRetries 0 elast
      (by intro k hk; simpa using hpre k hk) (by simpa using hlast)
    simpa [execLoop] using hh
  unfold executeWithConcurrencyControl
  rw [hloop]
  exact ⟨rfl, rfl⟩

/-- Witness for C4: a permanently 503-failing operation with retry
budget 2 is reported as failing after 3 attempts, wrapping "oops". -/
theorem exhaustion_error_wraps_last_witness :
    (∀ k, k < 2 → attemptFailedRetryably opRetryableAlways k = true) ∧
    attemptOutcome opRetryableAlways 2 =
      Except.error { message := "oops", code := none, responseStatus := some 503 } ∧
    (executeWithConcurrencyControl opRetryableAlways 2
        { totalRequests := 0, successfulRequests := 0, failedRequests := 0,
          retriedRequests := 0 }).1.result =
      Except.error "Request failed after 3 attempts: oops" ∧
    (executeWithConcurrencyControl opRetryableAlways 2
        { totalRequests := 0, successfulRequests := 0, failedRequests := 0,
          retriedRequests := 0 }).1.attemptsMade = 3 := by
  have h := exhaustion_error_wraps_last opRetryableAlways 2
    { totalRequests := 0, successfulRequests := 0, failedRequests := 0, retriedRequests := 0 }
    { message := "oops", code := none, responseStatus := some 503 }
    (by decide) (by decide)
  exact ⟨by decide, by decide, h.1, h.2⟩

/-- Claim C5: the operation function is invoked at most `maxRetries + 1`
times; if the first `j ≤ maxRetries` attempts fail retryably and attempt
`j` succeeds, the call returns that success after `j + 1` attempts; and
an operation whose first failure is non-retryable makes exactly one
attempt. -/
theorem retry_budget_and_classification (f : OpFn) (maxRetries : Nat) (st : Stats) :
    (executeWithConcurrencyControl f maxRetries st).1.attemptsMade ≤ maxRetries + 1 ∧
    (∀ j v, j ≤ maxRetries →
       (∀ k, k < j → attemptFailedRetryably f k = true) →
       attemptOutcome f j = Except.ok v →
       (executeWithConcurrencyControl f maxRetries st).1 =
         { result := Except.ok v, attemptsMade := j + 1 }) ∧
    (∀ e, attemptOutcome f 0 = Except.error e → isRetryableError e = false →
       (executeWithConcurrencyControl f maxRetries st).1.attemptsMade = 1) := by
  refine ⟨?_, ?_, ?_⟩
  · rw [executeWCC_attempts]
    have hh := execLoopGo_invocations_le f maxRetries 0
    simpa [execLoop] using hh
  · intro j v hj hpre hok
    have hloop : execLoop f maxRetries = LoopResult.success v j := by
      have hh := execLoopGo_success_after f j maxRetries 0 v
        (by intro k hk; simpa using hpre k hk) (by simpa using hok) hj
      simpa [execLoop] using hh
    unfold executeWithConcurrencyControl
    rw [hloop]
  · intro e ha hr
    have hloop : execLoop f maxRetries = LoopResult.failure e 1 := by
      unfold execLoop
      cases maxRetries with
      | zero => rw [execLoopGo_err_zero f 0 e ha]
      | succ r => rw [execLoopGo_err_stop f 0 r e ha hr]
    unfold executeWithConcurrencyControl
    rw [hloop]

/-- Witness for C5: two connection resets then success takes 3 attempts
within budget 3; a non-retryable HTTP 400 takes exactly one attempt. -/
theorem retry_budget_and_classification_witness :
    ((executeWithConcurrencyControl opFailTwiceThenOk 3
        { totalRequests := 0, successfulRequests := 0, failedRequests := 0,
          retriedRequests := 0 }).1 =
      { result := Except.ok 7, attemptsMade := 3 }) ∧
    ((executeWithConcurrencyControl opNonRetryable 3
        { totalRequests := 0, successfulRequests := 0, failedRequests := 0,
          retriedRequests := 0 }).1.attemptsMade = 1) := by
  have h1 := (retry_budget_and_classification opFailTwiceThenOk 3
    { totalRequests := 0, successfulRequests := 0, failedRequests := 0,
      retriedRequests := 0 }).2.1 2 7 (by omega) (by decide) (by decide)
  have h2 := (retry_budget_and_classification opNonRetryable 3
    { totalRequests := 0, successfulRequests := 0, failedRequests := 0,
      retriedRequests := 0 }).2.2
    { message := "bad request", code := none, responseStatus := some 400 }
    (by decide) (by decide)
  exact ⟨h1, h2⟩

/-- Claim C9: `retriedRequests` is incremented exactly when the
operation ultimately succeeds on its second or later attempt; a
first-attempt success, or an operation that fails on every attempt
(retried or not), leaves the counter unchanged. -/
theorem retried_counts_only_retried_successes (f : OpFn) (maxRetries : Nat) (st : Stats) :
    ((executeWithConcurrencyControl f maxRetries st).2.retriedRequests =
       st.retriedRequests + (if succeededOnRetry f maxRetries then 1 else 0)) ∧
    (∀ v i, execLoop f maxRetries = LoopResult.success v i → 0 < i →
       (executeWithConcurrencyControl f maxRetries st).2.retriedRequests =
         st.retriedRequests + 1) ∧
    (∀ v, execLoop f maxRetries = LoopResult.success v 0 →
       (executeWithConcurrencyControl f maxRetries st).2.retriedRequests =
         st.retriedRequests) ∧
    (∀ e n, execLoop f maxRetries = LoopResult.failure e n →
       (executeWithConcurrencyControl f maxRetries st).2.retriedRequests =
         st.retriedRequests) := by
  refine ⟨?_, ?_, ?_, ?_⟩
  · unfold executeWithConcurrencyControl succeededOnRetry
    cases hl : execLoop f maxRetries with
    | success v i => cases i <;> simp
    | failure e n => simp
  · intro v i hl hi
    unfold executeWithConcurrencyControl
    rw [hl]
    simp [hi]
  · intro v hl
    unfold executeWithConcurrencyControl
    rw [hl]
    simp
  · intro e n hl
    unfold executeWithConcurrencyControl
    rw [hl]

/-- Witness for C9: the operation succeeding on its third attempt
(attempt index 2 > 0) bumps `retriedRequests` from 0 to 1. -/
theorem retried_counts_only_retried_successes_witness :
    execLoop opFailTwiceThenOk 3 = LoopResult.success 7 2 ∧
    (executeWithConcurrencyControl opFailTwiceThenOk 3
        { totalRequests := 0, successfulRequests := 0, failedRequests := 0,
          retriedRequests := 0 }).2.retriedRequests = 0 + 1 :=
  ⟨by decide,
   (retried_counts_only_retried_successes opFailTwiceThenOk 3
     { totalRequests := 0, successfulRequests := 0, failedRequests := 0,
       retriedRequests := 0 }).2.1 7 2 (by decide) (by decide)⟩

lemma executeBatchGo_length (maxRetries : Nat) :
    ∀ (ops : List OpFn) (idx : Nat), (executeBatchGo maxRetries ops idx).length = ops.length := by
  intro ops
  induction ops with
  | nil => intro idx; rfl
  | cons f rest ih => intro idx; simp [executeBatchGo, ih]

lemma executeBatchGo_getD (maxRetries : Nat) :
    ∀ (ops : List OpFn) (idx i : Nat) (h : i < ops.length),
      (executeBatchGo maxRetries ops idx).getD i (Settled.rejected "") =
        Settled.fulfilled (batchItem (ops.get ⟨i, h⟩) maxRetries (idx + i)) := by
  intro ops
  induction ops with
  | nil => intro idx i h; exact absurd h (Nat.not_lt_zero i)
  | cons f rest ih =>
      intro idx i h
      cases i with
      | zero => simp [executeBatchGo]
      | succ j =>
          have hj : j < rest.length := by simpa using h
          have hrec := ih (idx + 1) j hj
          simp only [executeBatchGo, List.getD_cons_succ, List.get_cons_succ]
          rw [hrec, show idx + 1 + j = idx + (j + 1) by omega]

/-- Claim C8: in the default (non-failFast) batch mode every operation
gets its own fulfilled per-item outcome: the result list has one entry
per operation; entry `i` is determined by operation `i` alone, so one
operation's failure cannot prevent the other operations from completing
and being reported; a successful item carries its value and index; and
a failed item carries a `BATCH_ITEM_FAILED` error tagged with its
index. -/
theorem batch_reports_all_items (ops ops2 : List OpFn) (maxRetries i : Nat)
    (h : i < ops.length) (h2 : i < ops2.length)
    (hsame : ops.get ⟨i, h⟩ = ops2.get ⟨i, h2⟩) :
    (executeBatch ops maxRetries).length = ops.length ∧
    (executeBatch ops maxRetries).getD i (Settled.rejected "") =
      Settled.fulfilled (batchItem (ops.get ⟨i, h⟩) maxRetries i) ∧
    (executeBatch ops maxRetries).getD i (Settled.rejected "") =
      (executeBatch ops2 maxRetries).getD i (Settled.rejected "") ∧
    (∀ v, executeResult (ops.get ⟨i, h⟩) maxRetries = Except.ok v →
       batchItem (ops.get ⟨i, h⟩) maxRetries i =
         { success := true, data := some v, index := some i, error := none }) ∧
    (∀ m, executeResult (ops.get ⟨i, h⟩) maxRetries = Except.error m →
       batchItem (ops.get ⟨i, h⟩) maxRetries i =
         { success := false, data := none, index := none,
           error := some { code := "BATCH_ITEM_FAILED", message := m, index := i } }) := by
  have ha := executeBatchGo_getD maxRetries ops 0 i h
  have hb := executeBatchGo_getD maxRetries ops2 0 i h2
  refine ⟨executeBatchGo_length maxRetries ops 0, ?_, ?_, ?_, ?_⟩
  · simpa [executeBatch] using ha
  · rw [show executeBatch ops maxRetries = executeBatchGo maxRetries ops 0 from rfl, ha,
      show executeBatch ops2 maxRetries = executeBatchGo maxRetries ops2 0 from rfl, hb, hsame]
  · intro v hv
    unfold batchItem
    rw [hv]
  · intro m hm
    unfold batchItem
    rw [hm]

/-- Witness for C8: a two-operation batch whose second operation fails
non-retryably; its entry is present, tagged with index 1, and unchanged
when the first operation is replaced by a different one. -/
theorem batch_reports_all_items_witness :
    (executeBatch [opImmediateOk, opNonRetryable] 3).length = 2 ∧
    (executeBatch [opImmediateOk, opNonRetryable] 3).getD 1 (Settled.rejected "") =
      Settled.fulfilled (batchItem opNonRetryable 3 1) ∧
    (executeBatch [opImmediateOk, opNonRetryable] 3).getD 1 (Settled.rejected "") =
      (executeBatch [opRetryableAlways, opNonRetryable] 3).getD 1 (Settled.rejected "") := by
  have h := batch_reports_all_items [opImmediateOk, opNonRetryable]
    [opRetryableAlways, opNonRetryable] 3 1 (by decide) (by decide) rfl
  exact ⟨h.1, h.2.1, h.2.2.1⟩

lemma createTasksLoop_projects (env : RemoteEnv) (pid : Nat) :
    ∀ (rem : List TaskData) (i : Nat) (acc : List Nat) (st : RemoteState),
      (createTasksLoop env pid rem i acc st).2.projects =
        if (firstFailFrom env i rem).isSome && env.projectDelete then st.projects.erase pid
        else st.projects := by
  intro rem
  induction rem with
  | nil => intro i acc st; simp [createTasksLoop, firstFailFrom]
  | cons td rest ih =>
      intro i acc st
      cases ht : env.taskCreate i with
      | ok tid =>
          simp only [createTasksLoop, firstFailFrom, ht]
          rw [ih (i + 1)]
          rfl
      | error e =>
          simp only [createTasksLoop, firstFailFrom, ht]
          cases hd : env.projectDelete <;>
            simp [RemoteState.deleteProject]

lemma createTasksLoop_done (env : RemoteEnv) (pid : Nat) :
    ∀ (rem : List TaskData) (i : Nat) (acc : List Nat) (st : RemoteState),
      firstFailFrom env i rem = none →
      ∃ ids, (createTasksLoop env pid rem i acc st).1 = TasksOutcome.done ids ∧
        ids.length = acc.length + rem.length := by
  intro rem
  induction rem with
  | nil => intro i acc st _; exact ⟨acc, rfl, by simp⟩
  | cons td rest ih =>
      intro i acc st hff
      cases ht : env.taskCreate i with
      | error e => simp [firstFailFrom, ht] at hff
      | ok tid =>
          simp only [firstFailFrom, ht] at hff
          obtain ⟨ids, h1, h2⟩ := ih (i + 1) (acc ++ [tid])
            (st.addTask { id := tid, projectId := pid, status := taskStatusValue td }) hff
          refine ⟨ids, ?_, ?_⟩
          · simp only [createTasksLoop, ht]
            exact h1
          · simp only [List.length_append, List.length_singleton] at h2
            simp only [List.length_cons]
            omega

lemma createTasksLoop_failed (env : RemoteEnv) (pid : Nat) :
    ∀ (rem : List TaskData) (i : Nat) (acc : List Nat) (st : RemoteState) (j : Nat),
      firstFailFrom env i rem = some j →
      ∃ e created, (createTasksLoop env pid rem i acc st).1 = TasksOutcome.failed e created := by
  intro rem
  induction rem with
  | nil => intro i acc st j hff; simp [firstFailFrom] at hff
  | cons td rest ih =>
      intro i acc st j hff
      cases ht : env.taskCreate i with
      | error e =>
          refine ⟨{ name := "TASK_CREATE_FAILED",
                    message := taskCreateFailedMessage td.name i e.message pid }, acc, ?_⟩
          simp only [createTasksLoop, ht]
      | ok tid =>
          simp only [firstFailFrom, ht] at hff
          obtain ⟨e, created, h1⟩ := ih (i + 1) (acc ++ [tid])
            (st.addTask { id := tid, projectId := pid, status := taskStatusValue td }) j hff
          refine ⟨e, created, ?_⟩
          simp only [createTasksLoop, ht]
          exact h1

/-- Claim C1: assuming the remote system would assign the parent a
fresh record id `pid`, after `post` returns the parent project record
exists in the remote system exactly when the composite call succeeded
as a whole or the compensating delete of the parent itself failed; and
a successful response always carries one created task id per requested
task, never a partial set. -/
theorem parent_exists_iff_success_or_rollback_failed
    (env : RemoteEnv) (req : PostRequest) (st : RemoteState) (pid : Nat)
    (hpc : env.projectCreate = Except.ok pid) (hfresh : pid ∉ st.projects) :
    (pid ∈ (post env req st).2.projects ↔
       ((post env req st).1.success = true ∨ rollbackFailed env req = true)) ∧
    ((post env req st).1.success = true →
       ∃ d, (post env req st).1.data = some d ∧
         d.taskIds.length = req.taskList.length) := by
  cases hproj : req.project with
  | none =>
      constructor
      · simp [post, hproj, rollbackFailed, mkErrorEnvelope, hfresh]
      · simp [post, hproj, mkErrorEnvelope]
  | some proj =>
      cases hcf : isFalsyCustomer proj.customerId with
      | true =>
          constructor
          · simp [post, hproj, hcf, rollbackFailed, mkErrorEnvelope, hfresh]
          · simp [post, hproj, hcf, mkErrorEnvelope]
      | false =>
          have hrbf : rollbackFailed env req =
              ((firstFailFrom env 0 req.taskList).isSome && !env.projectDelete) := by
            simp [rollbackFailed, hproj, hcf, hpc]
          have hprojects :=
            createTasksLoop_projects env pid req.taskList 0 [] (st.addProject pid)
          cases hff : firstFailFrom env 0 req.taskList with
          | none =>
              obtain ⟨ids, hdone, hlen⟩ :=
                createTasksLoop_done env pid req.taskList 0 [] (st.addProject pid) hff
              rcases hloop : createTasksLoop env pid req.taskList 0 [] (st.addProject pid)
                with ⟨out, st2⟩
              rw [hloop] at hdone hprojects
              subst hdone
              rw [hff] at hprojects
              simp only [Option.isSome_none, Bool.false_and, if_false] at hprojects
              constructor
              · simp only [post, hproj, hcf, hpc, hloop]
                simp [hprojects, RemoteState.addProject]
              · simp only [post, hproj, hcf, hpc, hloop]
                intro _
                exact ⟨_, rfl, by simpa using hlen⟩
          | some j =>
              obtain ⟨e, created, hfail⟩ :=
                createTasksLoop_failed env pid req.taskList 0 [] (st.addProject pid) j hff
              rcases hloop : createTasksLoop env pid req.taskList 0 [] (st.addProject pid)
                with ⟨out, st2⟩
              rw [hloop] at hfail hprojects
              subst hfail
              rw [hff] at hprojects
              simp only [Option.isSome_some, Bool.true_and] at hprojects
              constructor
              · simp only [post, hproj, hcf, hpc, hloop]
                rw [hrbf, hff]
                cases hdel : env.projectDelete with
                | true =>
                    rw [hdel] at hprojects
                    simp only [if_true] at hprojects
                    have herase : (st.addProject pid).projects.erase pid = st.projects := by
                      simp only [RemoteState.addProject]
                      rw [List.erase_append_right _ hfresh, List.erase_cons_head]
                      simp
                    rw [herase] at hprojects
                    simp [mkErrorEnvelope, hprojects, hfresh]
                | false =>
                    rw [hdel] at hprojects
                    simp only [Bool.false_eq_true, if_false] at hprojects
                    simp [mkErrorEnvelope, hprojects, RemoteState.addProject]
              · simp only [post, hproj, hcf, hpc, hloop]
                simp [mkErrorEnvelope]

/-- Witness for C1: with fresh parent id 101 over an empty remote
system, a fully successful two-task composite leaves the parent
existing and the response success with both task ids. -/
theorem parent_exists_iff_success_witness :
    envAllOk.projectCreate = Except.ok 101 ∧
    (101 ∈ (post envAllOk twoTaskRequest emptyRemote).2.projects ↔
       ((post envAllOk twoTaskRequest emptyRemote).1.success = true ∨
        rollbackFailed envAllOk twoTaskRequest = true)) ∧
    ((post envAllOk twoTaskRequest emptyRemote).1.success = true →
       ∃ d, (post envAllOk twoTaskRequest emptyRemote).1.data = some d ∧
         d.taskIds.length = twoTaskRequest.taskList.length) := by
  have h := parent_exists_iff_success_or_rollback_failed envAllOk twoTaskRequest
    emptyRemote 101 rfl (by decide)
  exact ⟨rfl, h.1, h.2⟩

end PatDashboard
